import Mathlib

/-!
Verification of the snowflake standalone proxy core against its
specification.  The Go source is shallowly embedded: times are integers
(nanoseconds, as Go `time.Duration`), byte streams are lists, stateful
objects are explicit state records, and fallible operations return
`Option` / `Except`.  Each section names the Go function it embeds.
-/

namespace Snowflake

/-! ### Broker poll cadence (`Broker.pollOffer`, proxy/snowflake.go:203-216)

One loop iteration captures `now`, sleeps until `timeOfNextPoll`
(`time.Sleep` of a non-positive duration returns at once), then updates
`timeOfNextPoll = timeOfNextPoll.Add(pollInterval)`, clamped up to `now`
when it fell into the past. -/

/-- `pollInterval = 5 * time.Second` in nanoseconds. -/
def pollInterval : Int := 5 * 1000000000

/-- Effective duration slept by `time.Sleep(timeOfNextPoll.Sub(now))`:
a non-positive argument sleeps for zero time. -/
def pollSleep (sched now : Int) : Int := max 0 (sched - now)

/-- `timeOfNextPoll = timeOfNextPoll.Add(pollInterval); if
timeOfNextPoll.Before(now) { timeOfNextPoll = now }`. -/
def nextPollTime (sched now : Int) : Int :=
  let t := sched + pollInterval
  if t < now then now else t

/-! ### Bounded response read (`limitedRead`, proxy/snowflake.go:193-201)

A reader is modelled as its full byte content plus an optional terminal
error (`none` is a clean EOF; `io.EOF` is already swallowed by
`ioutil.ReadAll`, so only non-EOF errors appear here). -/

/-- Errors observable from `limitedRead`. -/
inductive RdErr where
  | unexpectedEOF : RdErr
  | underlying : String → RdErr
deriving DecidableEq, Repr

/-- `ioutil.ReadAll(&io.LimitedReader{R: r, N: cap})`: reads at most
`cap` bytes; the underlying terminal error is surfaced only when the
content runs out strictly before the cap (once the cap is hit the
`LimitedReader` reports EOF without touching the reader again). -/
def readAllLimited (content : List Nat) (errEnd : Option RdErr) (cap : Nat) :
    List Nat × Option RdErr :=
  (content.take cap, if content.length < cap then errEnd else none)

/-- `limitedRead(r, limit)` from proxy/snowflake.go:193-201. -/
def limitedRead (content : List Nat) (errEnd : Option RdErr) (limit : Nat) :
    List Nat × Option RdErr :=
  let p := readAllLimited content errEnd (limit + 1)
  match p.2 with
  | some e => (p.1, some e)
  | none =>
    if p.1.length = limit + 1 then
      (p.1.take limit, some RdErr.unexpectedEOF)
    else
      (p.1, none)

/-! ### IP-sighting sink cluster (`sinkcluster`, common/ipsetsink/sinkcluster)

Modelled from the spec: the probabilistic IP set `ipsetsink.IPSetSink`
(package common/ipsetsink) is not part of the embedded sources; per the
spec it is an opaque keyed set supporting `AddIPToSet`, `Dump` and
`Reset`.  We model its state as the list of addresses added since the
last reset (`current`), `Dump` as returning those contents (possibly
failing), and `Reset` as emptying them.  Each sink also carries flags
for the failure points of the flush path: `Dump` error, `json.Marshal`
error, write (`io.Copy`) error, and `Sync` error (whose return value the
source discards). -/

/-- `SinkEntry{RecordingStart, RecordingEnd, Recorded}`. -/
structure SinkEntry where
  recordingStart : Int
  recordingEnd : Int
  recorded : List String
deriving DecidableEq, Repr

/-- One named sink: durable writer output log plus current set. -/
structure Sink where
  current : List String
  out : List SinkEntry
  dumpFails : Bool
  marshalFails : Bool
  writeFails : Bool
  syncFails : Bool
deriving DecidableEq, Repr

/-- The three failure points that make `WriteIPSetToDisk` return early
for a sink (`Dump`, `json.Marshal`, `io.Copy`); `Sync`'s result is
discarded by the source and so does not appear here. -/
def sinkFails (s : Sink) : Bool := s.dumpFails || s.marshalFails || s.writeFails

/-- Successful per-sink flush body: append the entry
`{RecordingStart: lastWriteTime, RecordingEnd: currentTime, Recorded:
dump}` to the writer and `Reset()` the current set. -/
def flushOne (lwt ct : Int) (s : Sink) : Sink :=
  { s with
    out := s.out ++ [{ recordingStart := lwt, recordingEnd := ct,
                       recorded := s.current }]
    current := [] }

/-- The `for _, sink := range c.sinks` loop of `WriteIPSetToDisk`
(iteration order of the Go map fixed as the list order): flush each sink
in turn; at the first failing sink, stop, leaving it and every later
sink untouched.  Returns the updated sinks and whether the loop ran to
completion. -/
def flushSinks (lwt ct : Int) : List (String × Sink) → List (String × Sink) × Bool
  | [] => ([], true)
  | (n, s) :: rest =>
    if sinkFails s then ((n, s) :: rest, false)
    else
      let r := flushSinks lwt ct rest
      ((n, flushOne lwt ct s) :: r.1, r.2)

/-- `ClusterWriter` state (the lock serializes calls and is implicit in
the sequential embedding). -/
structure ClusterWriter where
  sinks : List (String × Sink)
  lastWriteTime : Int
  writeInterval : Int
deriving DecidableEq, Repr

/-- `ClusterWriter.WriteIPSetToDisk` (sinkcluster writer, lines 48-76):
`lastWriteTime = currentTime` runs only after the loop over all sinks
completes; an early return leaves it unchanged. -/
def WriteIPSetToDisk (c : ClusterWriter) (currentTime : Int) : ClusterWriter :=
  let r := flushSinks c.lastWriteTime currentTime c.sinks
  if r.2 then { c with sinks := r.1, lastWriteTime := currentTime }
  else { c with sinks := r.1 }

/-- Lookup of `c.sinks[name]` (first match in the fixed order). -/
def findSink : List (String × Sink) → String → Option Sink
  | [], _ => none
  | (n, s) :: rest, name => if n = name then some s else findSink rest name

/-- `c.sinks[name].current.AddIPToSet(ipAddress)`: add the address to
the named sink's current set. -/
def addToSink : List (String × Sink) → String → String → List (String × Sink)
  | [], _, _ => []
  | (n, s) :: rest, name, ip =>
    if n = name then (n, { s with current := s.current ++ [ip] }) :: rest
    else (n, s) :: addToSink rest name ip

/-- `ClusterWriter.AddIPToSet` (sinkcluster writer, lines 78-85): under
the lock, flush first when `lastWriteTime + writeInterval < now`, then
insert the address.  The two `time.Now()` calls of the source (guard and
flush) are modelled as the single instant `now`. -/
def AddIPToSet (c : ClusterWriter) (name ip : String) (now : Int) : ClusterWriter :=
  let c1 := if c.lastWriteTime + c.writeInterval < now
            then WriteIPSetToDisk c now else c
  { c1 with sinks := addToSink c1.sinks name ip }

/-! ### Supervised session control flow (`runSession`,
`datachannelHandler`, proxy/snowflake.go:319-349 and 426-462)

One supervised session is `getToken(); sid := genSessionID();
runSession(sid)` (the main loop).  Its control flow is embedded as the
ordered trace of the calls it made; the branch taken at each fallible
step is selected by a `SessionOutcome` value.  On the success path
(`dataChan` fires) the token is released by the spawned
`datachannelHandler`, whose trace is appended.

The final `select` is not synchronized with the `OnDataChannel`
callback: the callback does `close(dataChan)` and then spawns
`datachannelHandler` regardless of which `select` case wins, so when
the client opens the data channel around the 20 s deadline the timeout
branch and the handler both run.  `dcTimeout none` is the timeout with
the data channel never opening; `dcTimeout (some dialOk)` is the
timeout interleaved with a late `OnDataChannel`, whose handler events
are appended to the trace (the traces are compared by event counts,
which no interleaving order changes). -/

/-- The calls of `runSession` / `datachannelHandler` relevant to the
token discipline, in source order. -/
inductive Ev where
  | getTok | retTok
  | pollOffer | newPC | setRemoteDesc | createAnswer | setLocalDesc
  | sendAnswer | pcClose | connClose | dialRelay | copyLoop | wsClose
deriving DecidableEq, Repr

/-- `datachannelHandler` (proxy/snowflake.go:319-349): `defer
conn.Close()` then `defer retToken()` run LIFO on every return — both
after a relay dial failure and after `CopyLoop` ends. -/
def datachannelHandler (dialOk : Bool) : List Ev :=
  if dialOk then
    [Ev.dialRelay, Ev.copyLoop, Ev.wsClose, Ev.retTok, Ev.connClose]
  else
    [Ev.dialRelay, Ev.retTok, Ev.connClose]

/-- The outcomes of one `runSession` call.  The error branches and
`connected` are mutually exclusive straight-line paths; `dcTimeout`
carries whether `OnDataChannel` nevertheless fired around the deadline
(`none`: it never fired; `some dialOk`: the spawned handler also ran,
with the given relay-dial outcome). -/
inductive SessionOutcome where
  | badOffer
  | pcNewFail
  | pcRemoteDescFail
  | pcAnswerFail
  | pcLocalDescFail
  | answerSendFail
  | dcTimeout (lateOpen : Option Bool)
  | connected (dialOk : Bool)
deriving DecidableEq, Repr

/-- `runSession` (proxy/snowflake.go:426-462), with
`makePeerConnectionFromOffer` (lines 355-424) inlined: each error
branch logs, closes what it must, and calls `retToken()`; the
`dataChan` success branch leaves the release to the spawned
`datachannelHandler`. -/
def runSession : SessionOutcome → List Ev
  | SessionOutcome.badOffer => [Ev.pollOffer, Ev.retTok]
  | SessionOutcome.pcNewFail => [Ev.pollOffer, Ev.newPC, Ev.retTok]
  | SessionOutcome.pcRemoteDescFail =>
    [Ev.pollOffer, Ev.newPC, Ev.setRemoteDesc, Ev.pcClose, Ev.retTok]
  | SessionOutcome.pcAnswerFail =>
    [Ev.pollOffer, Ev.newPC, Ev.setRemoteDesc, Ev.createAnswer,
     Ev.pcClose, Ev.retTok]
  | SessionOutcome.pcLocalDescFail =>
    [Ev.pollOffer, Ev.newPC, Ev.setRemoteDesc, Ev.createAnswer,
     Ev.setLocalDesc, Ev.pcClose, Ev.retTok]
  | SessionOutcome.answerSendFail =>
    [Ev.pollOffer, Ev.newPC, Ev.setRemoteDesc, Ev.createAnswer,
     Ev.setLocalDesc, Ev.sendAnswer, Ev.pcClose, Ev.retTok]
  | SessionOutcome.dcTimeout lateOpen =>
    [Ev.pollOffer, Ev.newPC, Ev.setRemoteDesc, Ev.createAnswer,
     Ev.setLocalDesc, Ev.sendAnswer, Ev.pcClose, Ev.retTok] ++
    (match lateOpen with
     | none => []
     | some dialOk => datachannelHandler dialOk)
  | SessionOutcome.connected dialOk =>
    [Ev.pollOffer, Ev.newPC, Ev.setRemoteDesc, Ev.createAnswer,
     Ev.setLocalDesc, Ev.sendAnswer] ++ datachannelHandler dialOk

/-- One supervised session: the main loop's `getToken()` followed by
`runSession`. -/
def supervisedSession (o : SessionOutcome) : List Ev :=
  Ev.getTok :: runSession o

/-! ### SDP inspector (`remoteIPFromSDP`, proxy/lib/webrtcconn.go:128-165,
and `isRemoteAddress`, proxy/snowflake.go:70-72)

A `net.IP` is embedded as its text plus the three predicates the filter
consults (`util.IsLocal` is an external collaborator, so its verdict is
carried as a field).  An SDP text is embedded as the outcome of
`sdp.SessionDescription.Unmarshal` (`none` on parse error) together
with, for each of the two `c=IN IP` regular expressions in order, the
`net.ParseIP` outcome of its first match (`none` when the regex does
not match or the match does not parse). -/

/-- A parsed IP address with the classifications used by
`isRemoteAddress`. -/
structure IPAddr where
  addr : String
  isLocalAddr : Bool
  isLoopback : Bool
  isUnspecified : Bool
deriving DecidableEq, Repr

/-- `isRemoteAddress` (proxy/snowflake.go:70-72):
`!(util.IsLocal(ip) || ip.IsUnspecified() || ip.IsLoopback())`. -/
def isRemoteAddress (ip : IPAddr) : Bool :=
  !(ip.isLocalAddr || ip.isUnspecified || ip.isLoopback)

/-- One media-description attribute as the candidate scan sees it:
not an ICE candidate, an ICE candidate that fails
`ice.UnmarshalCandidate`, or a parsed candidate with the `net.ParseIP`
outcome of its address. -/
inductive MAttr where
  | plain
  | badCandidate
  | candidate (a : Option IPAddr)
deriving DecidableEq, Repr

/-- A successfully unmarshalled `sdp.SessionDescription`: its media
descriptions, each with its attributes in order. -/
structure ParsedSDP where
  media : List (List MAttr)
deriving DecidableEq, Repr

/-- An SDP text as seen by `remoteIPFromSDP`. -/
structure SDPText where
  parse : Option ParsedSDP
  fallback : List (Option IPAddr)
deriving DecidableEq, Repr

/-- Address of a parsed candidate attribute, if any. -/
def candAddr : MAttr → Option IPAddr
  | MAttr.candidate a => a
  | _ => none

/-- The candidate loop body over one media description's attributes:
return the first parsed candidate address passing `isRemoteAddress`. -/
def scanAttrs : List MAttr → Option IPAddr
  | [] => none
  | MAttr.plain :: rest => scanAttrs rest
  | MAttr.badCandidate :: rest => scanAttrs rest
  | MAttr.candidate a :: rest =>
    match a with
    | some ip => if isRemoteAddress ip then some ip else scanAttrs rest
    | none => scanAttrs rest

/-- The outer loop over `desc.MediaDescriptions`. -/
def scanMedia : List (List MAttr) → Option IPAddr
  | [] => none
  | attrs :: rest =>
    match scanAttrs attrs with
    | some ip => some ip
    | none => scanMedia rest

/-- The `for _, pattern := range remoteIPPatterns` fallback loop. -/
def scanFallback : List (Option IPAddr) → Option IPAddr
  | [] => none
  | some ip :: rest =>
    if isRemoteAddress ip then some ip else scanFallback rest
  | none :: rest => scanFallback rest

/-- `remoteIPFromSDP` (proxy/lib/webrtcconn.go:128-165): on parse error
return nil at once; otherwise scan candidates, then the regex
fallback. -/
def remoteIPFromSDP (s : SDPText) : Option IPAddr :=
  match s.parse with
  | none => none
  | some d =>
    match scanMedia d.media with
    | some ip => some ip
    | none => scanFallback s.fallback

/-- All parsed candidate addresses of a description, flattened in scan
order. -/
def candAddrs (media : List (List MAttr)) : List IPAddr :=
  (media.map (fun attrs => attrs.filterMap candAddr)).flatten

/-! ### Peer session byte sink and close (`webRTCConn`,
proxy/lib/webrtcconn.go:28-102)

The connection state carries the nil-able data channel reference, the
size-100 activity channel's occupancy, the `sync.Once` flag, and
counters for the effects guarded by it.  Blocking (the lock and the
`sendMoreCh` backpressure wait when `BufferedAmount() ≥
maxBufferedAmount`) suspends a call but does not change what it
returns. -/

/-- Data-channel state: bytes handed to `dc.Send` and the buffered
amount. -/
structure DCState where
  sent : List (List Nat)
  bufferedAmount : Nat
deriving DecidableEq, Repr

/-- `webRTCConn` state. -/
structure ConnState where
  dc : Option DCState
  activityLen : Nat
  inboundBytes : Nat
  onceDone : Bool
  cancelCount : Nat
  prCloseCount : Nat
  pcCloseCount : Nat
deriving DecidableEq, Repr

/-- `webRTCConn.Write` (proxy/lib/webrtcconn.go:79-94): log the bytes,
push a non-blocking activity signal, send on the data channel when the
reference is still set (waiting on `sendMoreCh` when past the
high-water mark), and unconditionally `return len(b), nil`. -/
def connWrite (c : ConnState) (b : List Nat) : ConnState × (Nat × Option String) :=
  let c1 := { c with inboundBytes := c.inboundBytes + b.length }
  let c2 := if c1.activityLen < 100
            then { c1 with activityLen := c1.activityLen + 1 } else c1
  let c3 := match c2.dc with
    | some d =>
      let d2 : DCState := { d with
        sent := d.sent ++ [b],
        bufferedAmount := d.bufferedAmount + b.length }
      { c2 with dc := some d2 }
    | none => c2
  (c3, (b.length, none))

/-- `webRTCConn.Close` (proxy/lib/webrtcconn.go:96-102): `once.Do` runs
the body — cancel the watchdog context, close the pipe reader and the
peer connection, joining their errors — only on the first call; later
calls return the named zero result. -/
def connClose (c : ConnState) : ConnState × Option String :=
  if c.onceDone then (c, none)
  else
    let c2 : ConnState := { c with
      onceDone := true,
      cancelCount := c.cancelCount + 1,
      prCloseCount := c.prCloseCount + 1,
      pcCloseCount := c.pcCloseCount + 1 }
    (c2, none)

/-- `n` successive `Close` calls. -/
def connCloseN : Nat → ConnState → ConnState
  | 0, c => c
  | n + 1, c => connCloseN n (connClose c).1

/-! ### Remote-description exposure (`webRTCConn.RemoteIP`,
proxy/lib/webrtcconn.go:108-111)

pion's `(*PeerConnection).RemoteDescription()` returns a nil
`*SessionDescription` until a remote description has been applied;
`remoteIPFromSDP(c.pc.RemoteDescription().SDP)` then dereferences that
nil pointer and the call faults with a runtime nil-dereference panic
instead of returning a value. -/

/-- A Go runtime fault. -/
inductive Fault where
  | nilDeref
deriving DecidableEq, Repr

/-- The peer connection as `RemoteIP` sees it. -/
structure PeerConnState where
  remoteDescription : Option SDPText
deriving DecidableEq, Repr

/-- `webRTCConn.RemoteIP` (proxy/lib/webrtcconn.go:108-111). -/
def connRemoteIP (pc : PeerConnState) : Except Fault (Option IPAddr) :=
  match pc.remoteDescription with
  | none => Except.error Fault.nilDeref
  | some s => Except.ok (remoteIPFromSDP s)

end Snowflake

namespace Snowflake

/-- Release-count characterization of the embedded session: every
straight-line path — bad offer, each peer-connection construction
failure, answer-send failure, timeout with no late open, and the normal
path through `datachannelHandler` — releases the one acquired token
exactly once; a timeout overlapped by a late `OnDataChannel` releases
twice. -/
lemma retTok_count_characterization (o : SessionOutcome) :
    (supervisedSession o).count Ev.retTok =
      (match o with
       | SessionOutcome.dcTimeout (some _) => 2
       | _ => 1) ∧
    (supervisedSession o).count Ev.getTok = 1 := by
  cases o with
  | connected dialOk => cases dialOk <;> exact ⟨rfl, rfl⟩
  | dcTimeout lateOpen =>
    cases lateOpen with
    | none => exact ⟨rfl, rfl⟩
    | some dialOk => cases dialOk <;> exact ⟨rfl, rfl⟩
  | _ => exact ⟨rfl, rfl⟩

/-- C1. Token conservation fails on the code at the timeout /
`OnDataChannel` overlap: the `select` in `runSession`
(snowflake.go:452-461) is not synchronized with the `OnDataChannel`
callback (snowflake.go:360-392), so when the client opens the data
channel around the 20 s deadline the timeout branch's `retToken`
(snowflake.go:460) and the spawned handler's deferred `retToken`
(snowflake.go:321) both run: two releases for the single acquisition.
A timeout without the late open releases exactly once. -/
theorem token_double_release :
    (supervisedSession (SessionOutcome.dcTimeout (some true))).count
      Ev.retTok = 2 ∧
    (supervisedSession (SessionOutcome.dcTimeout (some true))).count
      Ev.getTok = 1 ∧
    (supervisedSession (SessionOutcome.dcTimeout none)).count
      Ev.retTok = 1 :=
  ⟨rfl, rfl, rfl⟩

/-- C8. Poll cadence: the next scheduled poll time is
`max (previousScheduledTime + pollInterval) now`, and when the loop is
already past its schedule (`sched ≤ now`, the previous request overran)
the sleep is zero, so the next poll proceeds immediately. -/
theorem pollOffer_cadence (sched now : Int) :
    nextPollTime sched now = max (sched + pollInterval) now ∧
    (sched ≤ now → pollSleep sched now = 0) := by
  constructor
  · unfold nextPollTime
    rcases lt_or_le (sched + pollInterval) now with h | h
    · simp [h, max_eq_right (le_of_lt h)]
    · simp [not_lt.mpr h, max_eq_left h]
  · intro h
    unfold pollSleep
    have : sched - now ≤ 0 := by omega
    omega

/-- Witness for C8 at a concrete overrun schedule. -/
theorem pollOffer_cadence_witness :
    nextPollTime 0 7000000000 = max (0 + pollInterval) 7000000000 ∧
    pollSleep 0 7000000000 = 0 :=
  ⟨(pollOffer_cadence 0 7000000000).1,
   (pollOffer_cadence 0 7000000000).2 (by decide)⟩

/-- On a stream longer than the limit, `limitedRead` truncates. -/
lemma limitedRead_of_long (content : List Nat) (errEnd : Option RdErr)
    (limit : Nat) (h : limit < content.length) :
    limitedRead content errEnd limit =
      (content.take limit, some RdErr.unexpectedEOF) := by
  unfold limitedRead readAllLimited
  have hnl : ¬ content.length < limit + 1 := by omega
  have htl : (content.take (limit + 1)).length = limit + 1 := by
    simp [List.length_take]; omega
  simp [hnl, htl, List.take_take]

/-- On a stream within the limit, `limitedRead` is the identity read. -/
lemma limitedRead_of_short (content : List Nat) (errEnd : Option RdErr)
    (limit : Nat) (h : content.length ≤ limit) :
    limitedRead content errEnd limit = (content, errEnd) := by
  unfold limitedRead readAllLimited
  have hl : content.length < limit + 1 := by omega
  have htk : content.take (limit + 1) = content :=
    List.take_of_length_le (by omega)
  rcases errEnd with _ | e
  · have hne : ¬ content.length = limit + 1 := by omega
    simp [hl, htk, hne]
  · simp [hl, htk]

/-- C9. Bounded response read: `limitedRead` returns at most `limit`
bytes; a stream longer than `limit` yields exactly its first `limit`
bytes plus `io.ErrUnexpectedEOF`; a stream of at most `limit` bytes is
returned whole with the underlying reader's terminal error (`none` on a
clean EOF). -/
theorem limitedRead_bounded (content : List Nat) (errEnd : Option RdErr)
    (limit : Nat) :
    (limitedRead content errEnd limit).1.length ≤ limit ∧
    (limit < content.length →
      limitedRead content errEnd limit =
        (content.take limit, some RdErr.unexpectedEOF)) ∧
    (content.length ≤ limit →
      limitedRead content errEnd limit = (content, errEnd)) := by
  refine ⟨?_, fun h => limitedRead_of_long content errEnd limit h,
    fun h => limitedRead_of_short content errEnd limit h⟩
  rcases le_or_lt content.length limit with h | h
  · rw [limitedRead_of_short content errEnd limit h]
    exact h
  · rw [limitedRead_of_long content errEnd limit h]
    simp [List.length_take]

/-- Witness for C9: a five-byte stream read with limit 3 and with
limit 9. -/
theorem limitedRead_bounded_witness :
    limitedRead [1, 2, 3, 4, 5] none 3 =
      ([1, 2, 3], some RdErr.unexpectedEOF) ∧
    limitedRead [1, 2, 3, 4, 5] (some (RdErr.underlying "reset")) 9 =
      ([1, 2, 3, 4, 5], some (RdErr.underlying "reset")) :=
  ⟨(limitedRead_bounded [1, 2, 3, 4, 5] none 3).2.1 (by decide),
   (limitedRead_bounded [1, 2, 3, 4, 5]
      (some (RdErr.underlying "reset")) 9).2.2 (by decide)⟩

/-- When no sink fails, the flush loop rewrites every sink and reports
completion. -/
lemma flushSinks_all_ok (lwt ct : Int) (l : List (String × Sink))
    (h : ∀ p ∈ l, sinkFails p.2 = false) :
    flushSinks lwt ct l = (l.map (fun p => (p.1, flushOne lwt ct p.2)), true) := by
  induction l with
  | nil => rfl
  | cons p rest ih =>
    obtain ⟨n, s⟩ := p
    have hs : sinkFails s = false := h (n, s) (List.mem_cons_self _ _)
    have hrest : ∀ q ∈ rest, sinkFails q.2 = false :=
      fun q hq => h q (List.mem_cons_of_mem _ hq)
    simp [flushSinks, hs, ih hrest]

/-- At the first failing sink the flush loop stops: every earlier sink
is flushed, the failing sink and everything after it are untouched. -/
lemma flushSinks_fail_split (lwt ct : Int) (pre : List (String × Sink))
    (n : String) (s : Sink) (post : List (String × Sink))
    (hpre : ∀ p ∈ pre, sinkFails p.2 = false) (hs : sinkFails s = true) :
    flushSinks lwt ct (pre ++ (n, s) :: post) =
      (pre.map (fun p => (p.1, flushOne lwt ct p.2)) ++ (n, s) :: post, false) := by
  induction pre with
  | nil => simp [flushSinks, hs]
  | cons q rest ih =>
    obtain ⟨m, t⟩ := q
    have ht : sinkFails t = false := hpre (m, t) (List.mem_cons_self _ _)
    have hrest : ∀ p ∈ rest, sinkFails p.2 = false :=
      fun p hp => hpre p (List.mem_cons_of_mem _ hp)
    simp [flushSinks, ht, ih hrest]

/-- C2. Flush atomicity: when every sink succeeds, `WriteIPSetToDisk`
dumps, writes and resets every sink and only then advances
`lastWriteTime` to the call's instant; when some sink fails (`Dump`,
marshal or write error), the call returns early with `lastWriteTime`
unchanged, the sinks before the failure flushed, and the failing sink
and every sink after it untouched. -/
theorem writeIPSetToDisk_flush_atomic (c : ClusterWriter) (t : Int) :
    ((∀ p ∈ c.sinks, sinkFails p.2 = false) →
      (WriteIPSetToDisk c t).lastWriteTime = t ∧
      (WriteIPSetToDisk c t).sinks =
        c.sinks.map (fun p => (p.1, flushOne c.lastWriteTime t p.2))) ∧
    (∀ pre n s post, c.sinks = pre ++ (n, s) :: post →
      (∀ p ∈ pre, sinkFails p.2 = false) → sinkFails s = true →
      (WriteIPSetToDisk c t).lastWriteTime = c.lastWriteTime ∧
      (WriteIPSetToDisk c t).sinks =
        pre.map (fun p => (p.1, flushOne c.lastWriteTime t p.2)) ++
          (n, s) :: post) := by
  constructor
  · intro h
    unfold WriteIPSetToDisk
    rw [flushSinks_all_ok c.lastWriteTime t c.sinks h]
    exact ⟨rfl, rfl⟩
  · intro pre n s post hsplit hpre hs
    unfold WriteIPSetToDisk
    rw [hsplit, flushSinks_fail_split c.lastWriteTime t pre n s post hpre hs]
    exact ⟨rfl, rfl⟩

/-- Witness for C2: a two-sink cluster flushed successfully, and a
three-sink cluster whose middle sink has a failing writer. -/
theorem writeIPSetToDisk_flush_atomic_witness :
    ((WriteIPSetToDisk
        { sinks := [("a", { current := ["1.2.3.4"], out := [],
                            dumpFails := false, marshalFails := false,
                            writeFails := false, syncFails := false })],
          lastWriteTime := 0, writeInterval := 60 } 100).lastWriteTime = 100 ∧
      (WriteIPSetToDisk
        { sinks := [("a", { current := ["1.2.3.4"], out := [],
                            dumpFails := false, marshalFails := false,
                            writeFails := false, syncFails := false })],
          lastWriteTime := 0, writeInterval := 60 } 100).sinks =
        [("a", { current := [], out := [{ recordingStart := 0,
                                          recordingEnd := 100,
                                          recorded := ["1.2.3.4"] }],
                 dumpFails := false, marshalFails := false,
                 writeFails := false, syncFails := false })]) ∧
    ((WriteIPSetToDisk
        { sinks := [("a", { current := ["1.1.1.1"], out := [],
                            dumpFails := false, marshalFails := false,
                            writeFails := false, syncFails := false }),
                    ("b", { current := ["2.2.2.2"], out := [],
                            dumpFails := false, marshalFails := false,
                            writeFails := true, syncFails := false }),
                    ("c", { current := ["3.3.3.3"], out := [],
                            dumpFails := false, marshalFails := false,
                            writeFails := false, syncFails := false })],
          lastWriteTime := 7, writeInterval := 60 } 100).lastWriteTime = 7 ∧
      (WriteIPSetToDisk
        { sinks := [("a", { current := ["1.1.1.1"], out := [],
                            dumpFails := false, marshalFails := false,
                            writeFails := false, syncFails := false }),
                    ("b", { current := ["2.2.2.2"], out := [],
                            dumpFails := false, marshalFails := false,
                            writeFails := true, syncFails := false }),
                    ("c", { current := ["3.3.3.3"], out := [],
                            dumpFails := false, marshalFails := false,
                            writeFails := false, syncFails := false })],
          lastWriteTime := 7, writeInterval := 60 } 100).sinks =
        [("a", { current := [], out := [{ recordingStart := 7,
                                          recordingEnd := 100,
                                          recorded := ["1.1.1.1"] }],
                 dumpFails := false, marshalFails := false,
                 writeFails := false, syncFails := false }),
         ("b", { current := ["2.2.2.2"], out := [],
                 dumpFails := false, marshalFails := false,
                 writeFails := true, syncFails := false }),
         ("c", { current := ["3.3.3.3"], out := [],
                 dumpFails := false, marshalFails := false,
                 writeFails := false, syncFails := false })]) := by
  constructor
  · have h := (writeIPSetToDisk_flush_atomic
      { sinks := [("a", { current := ["1.2.3.4"], out := [],
                          dumpFails := false, marshalFails := false,
                          writeFails := false, syncFails := false })],
        lastWriteTime := 0, writeInterval := 60 } 100).1 (by decide)
    exact ⟨h.1, by rw [h.2]; rfl⟩
  · have h := (writeIPSetToDisk_flush_atomic
      { sinks := [("a", { current := ["1.1.1.1"], out := [],
                          dumpFails := false, marshalFails := false,
                          writeFails := false, syncFails := false }),
                  ("b", { current := ["2.2.2.2"], out := [],
                          dumpFails := false, marshalFails := false,
                          writeFails := true, syncFails := false }),
                  ("c", { current := ["3.3.3.3"], out := [],
                          dumpFails := false, marshalFails := false,
                          writeFails := false, syncFails := false })],
        lastWriteTime := 7, writeInterval := 60 } 100).2
      [("a", { current := ["1.1.1.1"], out := [],
               dumpFails := false, marshalFails := false,
               writeFails := false, syncFails := false })]
      "b" { current := ["2.2.2.2"], out := [],
            dumpFails := false, marshalFails := false,
            writeFails := true, syncFails := false }
      [("c", { current := ["3.3.3.3"], out := [],
               dumpFails := false, marshalFails := false,
               writeFails := false, syncFails := false })]
      rfl (by decide) (by decide)
    exact ⟨h.1, by rw [h.2]; rfl⟩

/-- Lookup commutes with flushing every sink. -/
lemma findSink_map_flushOne (lwt ct : Int) (l : List (String × Sink))
    (name : String) :
    findSink (l.map (fun p => (p.1, flushOne lwt ct p.2))) name =
      (findSink l name).map (flushOne lwt ct) := by
  induction l with
  | nil => rfl
  | cons p rest ih =>
    obtain ⟨n, s⟩ := p
    by_cases h : n = name
    · simp [findSink, h]
    · simp [findSink, h, ih]

/-- Lookup after `addToSink` sees the address appended to the named
sink's current set. -/
lemma findSink_addToSink (l : List (String × Sink)) (name ip : String) :
    findSink (addToSink l name ip) name =
      (findSink l name).map (fun s => { s with current := s.current ++ [ip] }) := by
  induction l with
  | nil => rfl
  | cons p rest ih =>
    obtain ⟨n, s⟩ := p
    by_cases h : n = name
    · simp [addToSink, findSink, h]
    · simp [addToSink, findSink, h, ih]

/-- C3. Flush-before-add: when `lastWriteTime + writeInterval < now`,
`AddIPToSet` flushes the whole cluster before inserting the address, so
the named sink ends with exactly the new address current and with a
flushed entry recording only the pre-call set — an entry that never
contains the newly added address. -/
theorem addIPToSet_flush_before_add (c : ClusterWriter) (name ip : String)
    (now : Int) (s : Sink)
    (hdue : c.lastWriteTime + c.writeInterval < now)
    (hok : ∀ p ∈ c.sinks, sinkFails p.2 = false)
    (hfind : findSink c.sinks name = some s)
    (hnew : ip ∉ s.current) :
    findSink (AddIPToSet c name ip now).sinks name =
      some { current := [ip],
             out := s.out ++ [{ recordingStart := c.lastWriteTime,
                                recordingEnd := now, recorded := s.current }],
             dumpFails := s.dumpFails, marshalFails := s.marshalFails,
             writeFails := s.writeFails, syncFails := s.syncFails } ∧
    (∀ e : SinkEntry,
      e ∈ s.out ++ [{ recordingStart := c.lastWriteTime, recordingEnd := now,
                      recorded := s.current }] →
      e ∉ s.out → ip ∉ e.recorded) := by
  constructor
  · unfold AddIPToSet
    rw [if_pos hdue]
    show findSink (addToSink (WriteIPSetToDisk c now).sinks name ip) name = _
    have hsinks : (WriteIPSetToDisk c now).sinks =
        c.sinks.map (fun p => (p.1, flushOne c.lastWriteTime now p.2)) := by
      unfold WriteIPSetToDisk
      rw [flushSinks_all_ok c.lastWriteTime now c.sinks hok]
      rfl
    rw [hsinks, findSink_addToSink, findSink_map_flushOne, hfind]
    simp [flushOne]
  · intro e he hold
    rcases List.mem_append.mp he with h | h
    · exact absurd h hold
    · have : e = { recordingStart := c.lastWriteTime, recordingEnd := now,
                   recorded := s.current } := List.mem_singleton.mp h
      rw [this]
      exact hnew

/-- Witness for C3: one sink, a window two intervals overdue, and a
fresh address. -/
theorem addIPToSet_flush_before_add_witness :
    findSink (AddIPToSet
      { sinks := [("demo", { current := ["1.1.1.1"], out := [],
                             dumpFails := false, marshalFails := false,
                             writeFails := false, syncFails := false })],
        lastWriteTime := 0, writeInterval := 60 } "demo" "5.6.7.8" 130).sinks
      "demo" =
      some { current := ["5.6.7.8"],
             out := [{ recordingStart := 0, recordingEnd := 130,
                       recorded := ["1.1.1.1"] }],
             dumpFails := false, marshalFails := false,
             writeFails := false, syncFails := false } ∧
    "5.6.7.8" ∉ ({ recordingStart := 0, recordingEnd := 130,
                   recorded := ["1.1.1.1"] } : SinkEntry).recorded := by
  have h := addIPToSet_flush_before_add
    { sinks := [("demo", { current := ["1.1.1.1"], out := [],
                           dumpFails := false, marshalFails := false,
                           writeFails := false, syncFails := false })],
      lastWriteTime := 0, writeInterval := 60 } "demo" "5.6.7.8" 130
    { current := ["1.1.1.1"], out := [], dumpFails := false,
      marshalFails := false, writeFails := false, syncFails := false }
    (by decide) (by decide) rfl (by decide)
  exact ⟨h.1, h.2 _ (by simp) (by simp)⟩

/-- C10. `Sync` failures are ignored: when every sink's `Dump`, marshal
and write succeed, the flush resets every sink and advances
`lastWriteTime`, whatever each sink's `Sync` result is — the source
discards `sink.writer.Sync()`'s return value. -/
theorem writeIPSetToDisk_sync_ignored (c : ClusterWriter) (t : Int)
    (h : ∀ p ∈ c.sinks, p.2.dumpFails = false ∧ p.2.marshalFails = false ∧
      p.2.writeFails = false) :
    (WriteIPSetToDisk c t).lastWriteTime = t ∧
    (WriteIPSetToDisk c t).sinks =
      c.sinks.map (fun p => (p.1, flushOne c.lastWriteTime t p.2)) := by
  have hok : ∀ p ∈ c.sinks, sinkFails p.2 = false := by
    intro p hp
    obtain ⟨h1, h2, h3⟩ := h p hp
    simp [sinkFails, h1, h2, h3]
  unfold WriteIPSetToDisk
  rw [flushSinks_all_ok c.lastWriteTime t c.sinks hok]
  exact ⟨rfl, rfl⟩

/-- The attribute scan is the first remote address among the parsed
candidate addresses. -/
lemma scanAttrs_eq_find (l : List MAttr) :
    scanAttrs l = (l.filterMap candAddr).find? isRemoteAddress := by
  induction l with
  | nil => rfl
  | cons a rest ih =>
    cases a with
    | plain => simpa [scanAttrs, candAddr] using ih
    | badCandidate => simpa [scanAttrs, candAddr] using ih
    | candidate aopt =>
      cases aopt with
      | none => simpa [scanAttrs, candAddr] using ih
      | some ip =>
        by_cases h : isRemoteAddress ip
        · simp [scanAttrs, candAddr, h, List.find?_cons_of_pos]
        · simp only [scanAttrs, candAddr, h, if_false, List.filterMap_cons]
          rw [List.find?_cons_of_neg _ (by simpa using h)]
          exact ih

/-- The media loop is the first remote address among all candidate
addresses in scan order. -/
lemma scanMedia_eq_find (media : List (List MAttr)) :
    scanMedia media = (candAddrs media).find? isRemoteAddress := by
  induction media with
  | nil => rfl
  | cons attrs rest ih =>
    show (match scanAttrs attrs with
          | some ip => some ip
          | none => scanMedia rest) = _
    rw [scanAttrs_eq_find, ih]
    unfold candAddrs
    simp only [List.map_cons, List.flatten_cons, List.find?_append]
    cases h : (attrs.filterMap candAddr).find? isRemoteAddress <;>
      simp [Option.orElse, h]

/-- The regex fallback loop is the first remote address among the
regexes' parsed matches. -/
lemma scanFallback_eq_find (l : List (Option IPAddr)) :
    scanFallback l = (l.filterMap (fun x => x)).find? isRemoteAddress := by
  induction l with
  | nil => rfl
  | cons aopt rest ih =>
    cases aopt with
    | none => simpa [scanFallback] using ih
    | some ip =>
      by_cases h : isRemoteAddress ip
      · simp [scanFallback, h, List.find?_cons_of_pos]
      · simp only [scanFallback, h, if_false, List.filterMap_cons]
        rw [List.find?_cons_of_neg _ (by simpa using h)]
        exact ih

/-- C4. SDP remote-IP extraction: `remoteIPFromSDP` returns the first
candidate address (media descriptions scanned in order) passing the
non-local filter; when no candidate qualifies, the first regex-fallback
address passing the same filter; otherwise none (an SDP that fails to
parse yields none).  In particular, whenever some candidate of a parsed
SDP is remote, the result is a remote address. -/
theorem remoteIPFromSDP_spec (s : SDPText) :
    remoteIPFromSDP s =
      (match s.parse with
       | none => none
       | some d =>
         match (candAddrs d.media).find? isRemoteAddress with
         | some ip => some ip
         | none => (s.fallback.filterMap (fun x => x)).find? isRemoteAddress) ∧
    (∀ d, s.parse = some d →
      ∀ ip, ip ∈ candAddrs d.media → isRemoteAddress ip = true →
      ∃ rip, remoteIPFromSDP s = some rip ∧ isRemoteAddress rip = true) := by
  have hmain : remoteIPFromSDP s =
      (match s.parse with
       | none => none
       | some d =>
         match (candAddrs d.media).find? isRemoteAddress with
         | some ip => some ip
         | none => (s.fallback.filterMap (fun x => x)).find? isRemoteAddress) := by
    unfold remoteIPFromSDP
    cases s.parse with
    | none => rfl
    | some d => simp [scanMedia_eq_find, scanFallback_eq_find]
  refine ⟨hmain, ?_⟩
  intro d hd ip hmem hip
  have hsome : ((candAddrs d.media).find? isRemoteAddress).isSome := by
    rw [List.find?_isSome]
    exact ⟨ip, hmem, hip⟩
  obtain ⟨rip, hrip⟩ := Option.isSome_iff_exists.mp hsome
  refine ⟨rip, ?_, List.find?_some hrip⟩
  rw [hmain, hd]
  simp [hrip]

/-- Witness for C4: an SDP whose first media description advertises a
host-local candidate then a public one; the public address is
returned. -/
theorem remoteIPFromSDP_spec_witness :
    ∃ rip, remoteIPFromSDP
      { parse := some { media :=
          [[MAttr.candidate (some { addr := "192.168.1.2",
                                    isLocalAddr := true,
                                    isLoopback := false,
                                    isUnspecified := false }),
            MAttr.candidate (some { addr := "203.0.113.7",
                                    isLocalAddr := false,
                                    isLoopback := false,
                                    isUnspecified := false })]] },
        fallback := [some { addr := "10.0.0.1", isLocalAddr := true,
                            isLoopback := false,
                            isUnspecified := false }, none] } = some rip ∧
      isRemoteAddress rip = true :=
  (remoteIPFromSDP_spec
    { parse := some { media :=
        [[MAttr.candidate (some { addr := "192.168.1.2",
                                  isLocalAddr := true,
                                  isLoopback := false,
                                  isUnspecified := false }),
          MAttr.candidate (some { addr := "203.0.113.7",
                                  isLocalAddr := false,
                                  isLoopback := false,
                                  isUnspecified := false })]] },
      fallback := [some { addr := "10.0.0.1", isLocalAddr := true,
                          isLoopback := false,
                          isUnspecified := false }, none] }).2
    _ rfl
    { addr := "203.0.113.7", isLocalAddr := false, isLoopback := false,
      isUnspecified := false }
    (by simp [candAddrs, candAddr]) (by decide)

/-- C5. Write totality: `webRTCConn.Write` always returns the full
length and no error; with the data channel live the bytes are handed to
`dc.Send`, and after the reference has been cleared they are silently
discarded. -/
theorem connWrite_total (c : ConnState) (b : List Nat) :
    (connWrite c b).2 = (b.length, (none : Option String)) ∧
    (connWrite c b).1.dc = c.dc.map (fun d =>
      { d with sent := d.sent ++ [b],
               bufferedAmount := d.bufferedAmount + b.length }) := by
  cases hdc : c.dc <;>
    by_cases hact : c.activityLen < 100 <;>
      simp [connWrite, hdc, hact]

/-- A closed `Close` call is the identity. -/
lemma connClose_done (c : ConnState) (h : c.onceDone = true) :
    connClose c = (c, none) := by
  unfold connClose
  rw [h]
  rfl

/-- Iterated `Close` after the first call changes nothing. -/
lemma connCloseN_done (n : Nat) (c : ConnState) (h : c.onceDone = true) :
    connCloseN n c = c := by
  induction n with
  | zero => rfl
  | succ m ih =>
    show connCloseN m (connClose c).1 = c
    rw [connClose_done c h]
    exact ih

/-- C6. Close idempotence: starting from a session not yet closed,
`N ≥ 1` `Close` calls run the `once.Do` body — watchdog cancel, pipe
reader close, peer connection close — exactly once; every later call is
a no-op. -/
theorem connClose_idempotent (c : ConnState) (n : Nat)
    (h0 : c.onceDone = false) (hn : 1 ≤ n) :
    (connCloseN n c).pcCloseCount = c.pcCloseCount + 1 ∧
    (connCloseN n c).prCloseCount = c.prCloseCount + 1 ∧
    (connCloseN n c).cancelCount = c.cancelCount + 1 := by
  obtain ⟨m, rfl⟩ : ∃ m, n = m + 1 := ⟨n - 1, by omega⟩
  have h1 : (connClose c).1 = { c with
      onceDone := true,
      cancelCount := c.cancelCount + 1,
      prCloseCount := c.prCloseCount + 1,
      pcCloseCount := c.pcCloseCount + 1 } := by
    unfold connClose
    rw [h0]
    rfl
  have hstep : connCloseN (m + 1) c = connCloseN m (connClose c).1 := rfl
  rw [hstep, h1, connCloseN_done m _ rfl]
  exact ⟨rfl, rfl, rfl⟩

/-- Witness for C6: three `Close` calls on a fresh session close the
peer connection once. -/
theorem connClose_idempotent_witness :
    (connCloseN 3 { dc := none, activityLen := 0, inboundBytes := 0,
                    onceDone := false, cancelCount := 0,
                    prCloseCount := 0, pcCloseCount := 0 }).pcCloseCount = 1 ∧
    (connCloseN 3 { dc := none, activityLen := 0, inboundBytes := 0,
                    onceDone := false, cancelCount := 0,
                    prCloseCount := 0, pcCloseCount := 0 }).prCloseCount = 1 ∧
    (connCloseN 3 { dc := none, activityLen := 0, inboundBytes := 0,
                    onceDone := false, cancelCount := 0,
                    prCloseCount := 0, pcCloseCount := 0 }).cancelCount = 1 :=
  connClose_idempotent
    { dc := none, activityLen := 0, inboundBytes := 0, onceDone := false,
      cancelCount := 0, prCloseCount := 0, pcCloseCount := 0 } 3 rfl
    (by decide)

/-- Counterexample for C7 as stated: calling `RemoteIP` with no remote
description set does not return none — it faults with a nil-pointer
dereference (`RemoteDescription()` is nil before negotiation and
`.SDP` dereferences it). -/
theorem remoteIP_unset_claim_cex :
    connRemoteIP { remoteDescription := none } ≠
      Except.ok (none : Option IPAddr) ∧
    connRemoteIP { remoteDescription := none } =
      Except.error Fault.nilDeref :=
  ⟨fun h => Except.noConfusion h, rfl⟩

/-- C7 amended: `RemoteIP` called before the remote description is set
faults with a nil dereference; once a remote description exists it
returns `remoteIPFromSDP` of it. -/
theorem remoteIP_unset_amended (pc : PeerConnState) :
    (pc.remoteDescription = none →
      connRemoteIP pc = Except.error Fault.nilDeref) ∧
    (∀ s, pc.remoteDescription = some s →
      connRemoteIP pc = Except.ok (remoteIPFromSDP s)) := by
  constructor
  · intro h
    unfold connRemoteIP
    rw [h]
  · intro s h
    unfold connRemoteIP
    rw [h]

/-- Witness for C7's amended claim at the unset state. -/
theorem remoteIP_unset_amended_witness :
    connRemoteIP { remoteDescription := none } =
      Except.error Fault.nilDeref :=
  (remoteIP_unset_amended { remoteDescription := none }).1 rfl

/-- Witness for C10: one sink whose `Sync` fails still gets reset and
the window still closes. -/
theorem writeIPSetToDisk_sync_ignored_witness :
    (WriteIPSetToDisk
      { sinks := [("demo", { current := ["9.9.9.9"], out := [],
                             dumpFails := false, marshalFails := false,
                             writeFails := false, syncFails := true })],
        lastWriteTime := 3, writeInterval := 60 } 50).lastWriteTime = 50 ∧
    (WriteIPSetToDisk
      { sinks := [("demo", { current := ["9.9.9.9"], out := [],
                             dumpFails := false, marshalFails := false,
                             writeFails := false, syncFails := true })],
        lastWriteTime := 3, writeInterval := 60 } 50).sinks =
      [("demo", { current := [], out := [{ recordingStart := 3,
                                           recordingEnd := 50,
                                           recorded := ["9.9.9.9"] }],
                  dumpFails := false, marshalFails := false,
                  writeFails := false, syncFails := true })] := by
  have h := writeIPSetToDisk_sync_ignored
    { sinks := [("demo", { current := ["9.9.9.9"], out := [],
                           dumpFails := false, marshalFails := false,
                           writeFails := false, syncFails := true })],
      lastWriteTime := 3, writeInterval := 60 } 50 (by decide)
  exact ⟨h.1, by rw [h.2]; rfl⟩

end Snowflake
